import Mathlib

/-!
Shallow embedding of the CHIP-8 emulator core from `src/chip8/emulator.py`
(class `Emulator`, method `run_once`), together with models of the `Memory`
and `VideoMemory` collaborators whose source files are not part of the
listing; those two are modelled from the specification.
-/

namespace Chip8

/-- `PROGRAM_COUNTER_START` from `emulator.py`. -/
def PROGRAM_COUNTER_START : Nat := 512

/-- `STACK_POINTER_START` from `emulator.py`. -/
def STACK_POINTER_START : Nat := 82

/-- Modelled from the spec: the memory is a flat byte-addressable store of
4 KiB (`src/chip8/memory.py` is not in the listing); accesses are
bounds-checked and fail with an out-of-bounds error otherwise. -/
def MEM_SIZE : Nat := 4096

/-- Modelled from the spec: `FONT_START`, the reserved offset near address 0
holding the glyph table (`src/chip8/memory.py` is not in the listing, so only
the role of the constant is recoverable, not its value). -/
def FONT_START : Nat := 0

/-- Modelled from the spec: byte store. `get` returns the byte at an address;
all mutation goes through the bounds-checked operations below. -/
structure Memory where
  get : Nat → Nat

/-- Bounds-checked single-byte read. -/
def Memory.read (m : Memory) (a : Nat) : Option Nat :=
  if a < MEM_SIZE then some (m.get a) else none

/-- Bounds-checked single-byte write. -/
def Memory.write (m : Memory) (a v : Nat) : Option Memory :=
  if a < MEM_SIZE then some ⟨fun x => if x = a then v else m.get x⟩ else none

/-- Bounds-checked 2-byte big-endian read, the model of
`int.from_bytes(self.memory[a:a+2], byteorder="big")`. -/
def Memory.read2 (m : Memory) (a : Nat) : Option Nat :=
  if a + 2 ≤ MEM_SIZE then some (m.get a * 256 + m.get (a + 1)) else none

/-- Bounds-checked 2-byte big-endian write, the model of
`self.memory[a:a+2] = int.to_bytes(v, 2, byteorder="big")`; per the spec a
ranged write is not partially applied. -/
def Memory.write2 (m : Memory) (a v : Nat) : Option Memory :=
  if a + 2 ≤ MEM_SIZE then
    some ⟨fun x => if x = a then v / 256 % 256 else if x = a + 1 then v % 256 else m.get x⟩
  else none

/-- Bounds-checked ranged read, the model of `self.memory[a:a+n]`. -/
def Memory.readRange (m : Memory) (a n : Nat) : Option (List Nat) :=
  if a + n ≤ MEM_SIZE then some ((List.range n).map (fun i => m.get (a + i))) else none

/-- Modelled from the spec: the framebuffer, a fixed-size monochrome pixel
grid (`src/chip8/display.py` is not in the listing); 64 columns by 32 rows,
the historical CHIP-8 dimensions. -/
structure VideoMemory where
  pixels : Fin 32 → Fin 64 → Bool

/-- Modelled from the spec: `VideoMemory.reset` zeroes every pixel. -/
def VideoMemory.reset : VideoMemory := ⟨fun _ _ => false⟩

/-- Modelled from the spec: XOR one sprite bit into the pixel at
`((x) mod width, (y) mod height)`; the Bool reports a set-to-unset
transition (collision). -/
def VideoMemory.xorPixel (vm : VideoMemory) (x y : Nat) (b : Bool) :
    VideoMemory × Bool :=
  let xi : Fin 64 := ⟨x % 64, Nat.mod_lt x (by omega)⟩
  let yi : Fin 32 := ⟨y % 32, Nat.mod_lt y (by omega)⟩
  let old := vm.pixels yi xi
  (⟨fun r c => if r = yi ∧ c = xi then Bool.xor old b else vm.pixels r c⟩, old && b)

/-- Modelled from the spec: draw one sprite row (one byte, most significant
bit first) at `(x, y)`, accumulating the collision flag. -/
def VideoMemory.drawRow (vm : VideoMemory) (x y byte : Nat) : VideoMemory × Bool :=
  (List.range 8).foldl
    (fun acc c =>
      let r := acc.1.xorPixel (x + c) y (((byte >>> (7 - c)) &&& 1) == 1)
      (r.1, acc.2 || r.2))
    (vm, false)

/-- Modelled from the spec: `draw_sprite` XOR-blits the sprite rows starting
at `(x, y)` with wraparound and returns whether any pixel was unset by the
blit. -/
def VideoMemory.draw_sprite : VideoMemory → Nat → Nat → List Nat → VideoMemory × Bool
  | vm, _, _, [] => (vm, false)
  | vm, x, y, byte :: rest =>
    let r := vm.drawRow x y byte
    let r2 := VideoMemory.draw_sprite r.1 x (y + 1) rest
    (r2.1, r.2 || r2.2)

/-- Signals a `run_once` call can raise towards the host:
`haltRecommended` models `self.parent.actionPause.setChecked(True)` and
`displayChanged` models the `display_changed` Qt signal. -/
structure Signals where
  haltRecommended : Bool := false
  displayChanged : Bool := false
deriving DecidableEq

/-- The two failure kinds of spec section 7: an out-of-bounds memory access,
and the `UnimplementedInstruction` exception of `emulator.py` with its
payload (instruction word and fetch address). -/
inductive EmuFailure where
  | outOfBounds : EmuFailure
  | unimplementedInstruction (instruction address : Nat) : EmuFailure
deriving DecidableEq

/-- Processor state: the fields of class `Emulator` that `run_once` and
`decrement_timers` read or mutate. -/
structure Emulator where
  v : Fin 16 → Nat
  program_counter : Nat
  index_register : Nat
  stack_pointer : Nat
  delay_timer : Nat
  sound_timer : Nat
  waiting_for_keypress : Bool
  keypress_target : Fin 16
  memory : Memory
  video_memory : VideoMemory

/-- Result of one `run_once` call: normal completion with its signals, or a
raised exception; `emitted` records whether `emulation_error.emit` ran before
the raise. Both constructors carry the processor state at the moment control
leaves `run_once`. -/
inductive StepResult where
  | ok (s : Emulator) (sig : Signals)
  | err (e : EmuFailure) (emitted : Bool) (s : Emulator)

/-- The processor state carried by a step result. -/
def StepResult.state : StepResult → Emulator
  | .ok s _ => s
  | .err _ _ s => s

/-- Whether the step completed without raising. -/
def StepResult.isOk : StepResult → Bool
  | .ok _ _ => true
  | .err _ _ _ => false

/-- `(instruction & 0x0F00) >> 8`, the R1 register index of an instruction
word. -/
def hiReg (instruction : Nat) : Fin 16 :=
  ⟨(instruction &&& 0x0F00) >>> 8, by
    have h : instruction &&& 0x0F00 ≤ 0x0F00 := Nat.and_le_right
    have h2 : (instruction &&& 0x0F00) >>> 8 = (instruction &&& 0x0F00) / 2 ^ 8 :=
      Nat.shiftRight_eq_div_pow _ _
    have h3 : (2 : Nat) ^ 8 = 256 := by norm_num
    rw [h3] at h2
    omega⟩

/-- `(instruction & 0x00F0) >> 4`, the R2 register index of an instruction
word. -/
def loReg (instruction : Nat) : Fin 16 :=
  ⟨(instruction &&& 0x00F0) >>> 4, by
    have h : instruction &&& 0x00F0 ≤ 0x00F0 := Nat.and_le_right
    have h2 : (instruction &&& 0x00F0) >>> 4 = (instruction &&& 0x00F0) / 2 ^ 4 :=
      Nat.shiftRight_eq_div_pow _ _
    have h3 : (2 : Nat) ^ 4 = 16 := by norm_num
    rw [h3] at h2
    omega⟩

/-- Iterations of the `while v > 255: v -= 256` loop of `7XNN`; the first
argument bounds the number of passes still allowed and decreases by one per
pass, so the recursion is structural. -/
def wrapDownGo : Nat → Nat → Nat
  | 0, x => x
  | fuel + 1, x => if x > 255 then wrapDownGo fuel (x - 256) else x

/-- The `while v > 255: v -= 256` normalisation loop of `7XNN`: `x` passes
always suffice because every pass removes 256. -/
def wrapDown (x : Nat) : Nat := wrapDownGo x x

/-- Iterations of the `while v > 255: v -= 256; carry = True` loop of
`8XY4`, with the same structural fuel as `wrapDownGo`. -/
def wrapDownCarryGo : Nat → Nat → Bool → Nat × Bool
  | 0, x, c => (x, c)
  | fuel + 1, x, c => if x > 255 then wrapDownCarryGo fuel (x - 256) true else (x, c)

/-- The `while v > 255: v -= 256; carry = True` loop of `8XY4`: `x` passes
always suffice. -/
def wrapDownCarry (x : Nat) (carry : Bool) : Nat × Bool := wrapDownCarryGo x x carry

/-- Iterations of the `while v < 0: v += 256; borrow = True` loop of
`8XY5`/`8XY7` (Python integers are signed, hence `Int`), with structural
fuel. -/
def wrapUpBorrowGo : Nat → Int → Bool → Int × Bool
  | 0, x, b => (x, b)
  | fuel + 1, x, b => if x < 0 then wrapUpBorrowGo fuel (x + 256) true else (x, b)

/-- The `while v < 0: v += 256; borrow = True` loop of `8XY5`/`8XY7`:
`x.natAbs` passes always suffice because every pass adds 256. -/
def wrapUpBorrow (x : Int) (borrow : Bool) : Int × Bool := wrapUpBorrowGo x.natAbs x borrow

/-- The `FX55` store loop, `for i in range(R1+1): memory[I+i] = v[i]`,
structural on the number of indices left; the Bool is false when a write
went out of bounds, aborting the loop there with the earlier writes applied.
The index stays below 16, so the `i % 16` coercion never truncates. -/
def storeRegs (v : Fin 16 → Nat) (base : Nat) : Memory → Nat → Nat → Memory × Bool
  | m, _, 0 => (m, true)
  | m, i, left + 1 =>
    match m.write (base + i) (v ⟨i % 16, Nat.mod_lt i (by omega)⟩) with
    | none => (m, false)
    | some m1 => storeRegs v base m1 (i + 1) left

/-- The `FX65` load loop, `for i in range(R1+1): v[i] = memory[I+i]`,
structural on the number of indices left; the Bool is false when a read went
out of bounds, aborting the loop there. -/
def loadRegs (m : Memory) (base : Nat) : (Fin 16 → Nat) → Nat → Nat → (Fin 16 → Nat) × Bool
  | v, _, 0 => (v, true)
  | v, i, left + 1 =>
    match m.read (base + i) with
    | none => (v, false)
    | some b =>
      loadRegs m base (Function.update v ⟨i % 16, Nat.mod_lt i (by omega)⟩ b) (i + 1) left

/-- The decode/execute chain of `run_once` (`emulator.py` lines 96-394),
applied to the fetched instruction word; the program counter of `s` has
already been advanced past the instruction, exactly as in the source, so the
fetch address is `s.program_counter - 2`. `is_key_pressed` is the host input
capability and `rand` is the value drawn by `randint(0, 255)` for `CXNN`. -/
def executeInstruction (is_key_pressed : Nat → Bool) (rand : Nat)
    (instruction : Nat) (s : Emulator) : StepResult :=
  if instruction = 0x00E0 then
    .ok { s with video_memory := VideoMemory.reset } {}
  else if instruction = 0x00EE then
    match s.memory.read2 (s.stack_pointer - 2) with
    | none => .err .outOfBounds false { s with stack_pointer := s.stack_pointer - 2 }
    | some a =>
      .ok { s with stack_pointer := s.stack_pointer - 2, program_counter := a } {}
  else if instruction &&& 0xF000 = 0x1000 then
    .ok { s with program_counter := instruction &&& 0x0FFF }
      { haltRecommended := decide (s.program_counter - 2 = instruction &&& 0x0FFF) }
  else if instruction &&& 0xF000 = 0x2000 then
    match s.memory.write2 s.stack_pointer s.program_counter with
    | none => .err .outOfBounds false s
    | some m =>
      .ok { s with memory := m, stack_pointer := s.stack_pointer + 2,
                   program_counter := instruction &&& 0x0FFF } {}
  else if instruction &&& 0xF000 = 0x3000 then
    .ok (if s.v (hiReg instruction) = instruction &&& 0x00FF then
          { s with program_counter := s.program_counter + 2 } else s) {}
  else if instruction &&& 0xF000 = 0x4000 then
    .ok (if s.v (hiReg instruction) ≠ instruction &&& 0x00FF then
          { s with program_counter := s.program_counter + 2 } else s) {}
  else if instruction &&& 0xF00F = 0x5000 then
    .ok (if s.v (hiReg instruction) = s.v (loReg instruction) then
          { s with program_counter := s.program_counter + 2 } else s) {}
  else if instruction &&& 0xF000 = 0x6000 then
    .ok { s with v := Function.update s.v (hiReg instruction) (instruction &&& 0x00FF) } {}
  else if instruction &&& 0xF000 = 0x7000 then
    .ok { s with v := Function.update s.v (hiReg instruction)
                  (wrapDown (s.v (hiReg instruction) + (instruction &&& 0x00FF))) } {}
  else if instruction &&& 0xF00F = 0x8000 then
    .ok { s with v := Function.update s.v (hiReg instruction) (s.v (loReg instruction)) } {}
  else if instruction &&& 0xF00F = 0x8001 then
    .ok { s with v := Function.update s.v (hiReg instruction)
                  (s.v (hiReg instruction) ||| s.v (loReg instruction)) } {}
  else if instruction &&& 0xF00F = 0x8002 then
    .ok { s with v := Function.update s.v (hiReg instruction)
                  (s.v (hiReg instruction) &&& s.v (loReg instruction)) } {}
  else if instruction &&& 0xF00F = 0x8003 then
    .ok { s with v := Function.update s.v (hiReg instruction)
                  (s.v (hiReg instruction) ^^^ s.v (loReg instruction)) } {}
  else if instruction &&& 0xF00F = 0x8004 then
    let r := wrapDownCarry (s.v (hiReg instruction) + s.v (loReg instruction)) false
    .ok { s with v := Function.update (Function.update s.v (hiReg instruction) r.1) 15
                  (if r.2 then 1 else 0) } {}
  else if instruction &&& 0xF00F = 0x8005 then
    let r := wrapUpBorrow ((s.v (hiReg instruction) : Int) - (s.v (loReg instruction) : Int)) false
    .ok { s with v := Function.update (Function.update s.v (hiReg instruction) r.1.toNat) 15
                  (if r.2 then 0 else 1) } {}
  else if instruction &&& 0xF00F = 0x8006 then
    let v1 := Function.update s.v 15 (s.v (hiReg instruction) &&& 0x01)
    .ok { s with v := Function.update v1 (hiReg instruction) (v1 (hiReg instruction) >>> 1) } {}
  else if instruction &&& 0xF00F = 0x8007 then
    let r := wrapUpBorrow ((s.v (loReg instruction) : Int) - (s.v (hiReg instruction) : Int)) false
    .ok { s with v := Function.update (Function.update s.v (hiReg instruction) r.1.toNat) 15
                  (if r.2 then 0 else 1) } {}
  else if instruction &&& 0xF00F = 0x800E then
    let v1 := Function.update s.v 15 ((s.v (hiReg instruction) &&& 0x80) >>> 7)
    .ok { s with v := Function.update v1 (hiReg instruction) (v1 (hiReg instruction) <<< 1) } {}
  else if instruction &&& 0xF00F = 0x9000 then
    .ok (if s.v (hiReg instruction) ≠ s.v (loReg instruction) then
          { s with program_counter := s.program_counter + 2 } else s) {}
  else if instruction &&& 0xF000 = 0xA000 then
    .ok { s with index_register := instruction &&& 0x0FFF } {}
  else if instruction &&& 0xF000 = 0xB000 then
    .ok { s with program_counter := (instruction &&& 0x0FFF) + s.v 0 }
      { haltRecommended := decide (s.program_counter - 2 = (instruction &&& 0x0FFF) + s.v 0) }
  else if instruction &&& 0xF000 = 0xC000 then
    .ok { s with v := Function.update s.v (hiReg instruction)
                  (rand &&& (instruction &&& 0x00FF)) } {}
  else if instruction &&& 0xF000 = 0xD000 then
    match s.memory.readRange s.index_register (instruction &&& 0x000F) with
    | none => .err .outOfBounds false s
    | some sprite =>
      let r := s.video_memory.draw_sprite (s.v (hiReg instruction))
                 (s.v (loReg instruction)) sprite
      .ok { s with video_memory := r.1,
                   v := Function.update s.v 15 (if r.2 then 1 else 0) }
        { displayChanged := true }
  else if instruction &&& 0xF0FF = 0xE09E then
    .ok (if is_key_pressed (s.v (hiReg instruction)) then
          { s with program_counter := s.program_counter + 2 } else s) {}
  else if instruction &&& 0xF0FF = 0xE0A1 then
    .ok (if !is_key_pressed (s.v (hiReg instruction)) then
          { s with program_counter := s.program_counter + 2 } else s) {}
  else if instruction &&& 0xF0FF = 0xF007 then
    .ok { s with v := Function.update s.v (hiReg instruction) s.delay_timer } {}
  else if instruction &&& 0xF0FF = 0xF00A then
    .ok { s with keypress_target := hiReg instruction, waiting_for_keypress := true } {}
  else if instruction &&& 0xF0FF = 0xF015 then
    .ok { s with delay_timer := s.v (hiReg instruction) } {}
  else if instruction &&& 0xF0FF = 0xF018 then
    .ok { s with sound_timer := s.v (hiReg instruction) } {}
  else if instruction &&& 0xF0FF = 0xF01E then
    if s.index_register + s.v (hiReg instruction) > 0xFFF then
      .ok { s with index_register := s.index_register + s.v (hiReg instruction) - 0x1000,
                   v := Function.update s.v 15 1 } {}
    else
      .ok { s with index_register := s.index_register + s.v (hiReg instruction),
                   v := Function.update s.v 15 0 } {}
  else if instruction &&& 0xF0FF = 0xF029 then
    .ok { s with index_register := FONT_START + s.v (hiReg instruction) * 5 } {}
  else if instruction &&& 0xF0FF = 0xF033 then
    match s.memory.write s.index_register (s.v (hiReg instruction) / 100) with
    | none => .err .outOfBounds false s
    | some m1 =>
      match m1.write (s.index_register + 1) (s.v (hiReg instruction) % 100 / 10) with
      | none => .err .outOfBounds false { s with memory := m1 }
      | some m2 =>
        match m2.write (s.index_register + 2) (s.v (hiReg instruction) % 100 % 10) with
        | none => .err .outOfBounds false { s with memory := m2 }
        | some m3 => .ok { s with memory := m3 } {}
  else if instruction &&& 0xF0FF = 0xF055 then
    let r := storeRegs s.v s.index_register s.memory 0 (((instruction &&& 0x0F00) >>> 8) + 1)
    if r.2 then .ok { s with memory := r.1 } {}
    else .err .outOfBounds false { s with memory := r.1 }
  else if instruction &&& 0xF0FF = 0xF065 then
    let r := loadRegs s.memory s.index_register s.v 0 (((instruction &&& 0x0F00) >>> 8) + 1)
    if r.2 then .ok { s with v := r.1 } {}
    else .err .outOfBounds false { s with v := r.1 }
  else
    .err (.unimplementedInstruction instruction (s.program_counter - 2)) true s

/-- The fetch phase plus decode/execute: `emulator.py` lines 93-394. The
2-byte word at the program counter is read big-endian and the program
counter is advanced by 2 before decoding. -/
def fetchExecute (is_key_pressed : Nat → Bool) (rand : Nat) (s : Emulator) :
    StepResult :=
  match s.memory.read2 s.program_counter with
  | none => .err .outOfBounds false s
  | some instruction =>
    executeInstruction is_key_pressed rand instruction
      { s with program_counter := s.program_counter + 2 }

/-- `Emulator.run_once`, one `step()` call. While the blocking-input latch is
set, keys 0-15 are polled in ascending order; on the first hit the key is
stored in the target register and the latch cleared, after which control
falls through into fetch/decode/execute (the `break` in the source skips the
`for`/`else` `return`); when no key is pressed the call returns at once. -/
def run_once (is_key_pressed : Nat → Bool) (rand : Nat) (s : Emulator) :
    StepResult :=
  if s.waiting_for_keypress then
    match (List.range 16).find? is_key_pressed with
    | some key =>
      fetchExecute is_key_pressed rand
        { s with v := Function.update s.v s.keypress_target key,
                 waiting_for_keypress := false }
    | none => .ok s {}
  else
    fetchExecute is_key_pressed rand s

/-- `Emulator.decrement_timers`: each timer is decremented when positive. -/
def decrement_timers (s : Emulator) : Emulator :=
  { s with delay_timer := if s.delay_timer > 0 then s.delay_timer - 1 else s.delay_timer,
           sound_timer := if s.sound_timer > 0 then s.sound_timer - 1 else s.sound_timer }

/-- An instruction word matches some pattern of the dispatch chain; the else
branch of `run_once` is reached exactly when this fails. -/
def isImplemented (w : Nat) : Prop :=
  w = 0x00E0 ∨ w = 0x00EE ∨
  w &&& 0xF000 = 0x1000 ∨ w &&& 0xF000 = 0x2000 ∨ w &&& 0xF000 = 0x3000 ∨
  w &&& 0xF000 = 0x4000 ∨ w &&& 0xF00F = 0x5000 ∨ w &&& 0xF000 = 0x6000 ∨
  w &&& 0xF000 = 0x7000 ∨ w &&& 0xF00F = 0x8000 ∨ w &&& 0xF00F = 0x8001 ∨
  w &&& 0xF00F = 0x8002 ∨ w &&& 0xF00F = 0x8003 ∨ w &&& 0xF00F = 0x8004 ∨
  w &&& 0xF00F = 0x8005 ∨ w &&& 0xF00F = 0x8006 ∨ w &&& 0xF00F = 0x8007 ∨
  w &&& 0xF00F = 0x800E ∨ w &&& 0xF00F = 0x9000 ∨ w &&& 0xF000 = 0xA000 ∨
  w &&& 0xF000 = 0xB000 ∨ w &&& 0xF000 = 0xC000 ∨ w &&& 0xF000 = 0xD000 ∨
  w &&& 0xF0FF = 0xE09E ∨ w &&& 0xF0FF = 0xE0A1 ∨ w &&& 0xF0FF = 0xF007 ∨
  w &&& 0xF0FF = 0xF00A ∨ w &&& 0xF0FF = 0xF015 ∨ w &&& 0xF0FF = 0xF018 ∨
  w &&& 0xF0FF = 0xF01E ∨ w &&& 0xF0FF = 0xF029 ∨ w &&& 0xF0FF = 0xF033 ∨
  w &&& 0xF0FF = 0xF055 ∨ w &&& 0xF0FF = 0xF065

instance (w : Nat) : Decidable (isImplemented w) := by
  unfold isImplemented
  infer_instance

/-- Two masked views of the same word cannot disagree on the overlap of the
masks. -/
lemma mask_conflict {w m1 m2 v1 v2 : Nat} (h1 : w &&& m1 = v1) (h2 : w &&& m2 = v2)
    (hne : v1 &&& m2 ≠ v2 &&& m1) : False := by
  apply hne
  rw [← h1, ← h2, Nat.and_assoc, Nat.and_assoc, Nat.and_comm m2 m1]

/-- A masked view of the word rules out concrete values that disagree with it
under the mask. -/
lemma mask_eq_conflict {w m v c : Nat} (h : w &&& m = v) (hg : w = c)
    (hne : ¬ c &&& m = v) : False := by
  subst hg
  exact hne h

/-- With enough fuel, the `while v > 255` loop computes reduction modulo
256. -/
lemma wrapDownGo_eq (fuel : Nat) : ∀ x : Nat, x ≤ 255 + 256 * fuel →
    wrapDownGo fuel x = x % 256 := by
  induction fuel with
  | zero =>
    intro x h
    unfold wrapDownGo
    omega
  | succ fuel ih =>
    intro x h
    unfold wrapDownGo
    split
    · rw [ih (x - 256) (by omega)]
      omega
    · omega

/-- The `while v > 255` loop computes reduction modulo 256. -/
lemma wrapDown_eq (x : Nat) : wrapDown x = x % 256 :=
  wrapDownGo_eq x x (by omega)

/-- With enough fuel, the `while v > 255` loop of `8XY4` computes reduction
modulo 256 and its carry flag records whether the value exceeded 255. -/
lemma wrapDownCarryGo_eq (fuel : Nat) : ∀ (x : Nat) (b : Bool), x ≤ 255 + 256 * fuel →
    wrapDownCarryGo fuel x b = (x % 256, b || decide (x > 255)) := by
  induction fuel with
  | zero =>
    intro x b h
    unfold wrapDownCarryGo
    have h1 : x % 256 = x := by omega
    have h2 : decide (x > 255) = false := by simp only [decide_eq_false_iff_not]; omega
    simp [h1, h2]
  | succ fuel ih =>
    intro x b h
    unfold wrapDownCarryGo
    split
    · rename_i hgt
      rw [ih (x - 256) true (by omega)]
      have h1 : (x - 256) % 256 = x % 256 := by omega
      have h2 : decide (x > 255) = true := by simp only [decide_eq_true_eq]; omega
      simp [h1, h2]
    · rename_i hle
      have h1 : x % 256 = x := by omega
      have h2 : decide (x > 255) = false := by simp only [decide_eq_false_iff_not]; omega
      simp [h1, h2]

/-- The `while v > 255` loop of `8XY4` computes reduction modulo 256 and its
carry flag is set exactly when the sum exceeded 255. -/
lemma wrapDownCarry_eq (x : Nat) (b : Bool) :
    wrapDownCarry x b = (x % 256, b || decide (x > 255)) :=
  wrapDownCarryGo_eq x x b (by omega)

/-- When the blocking-input latch is clear, `run_once` is fetch plus
decode/execute. -/
lemma run_once_running (keys : Nat → Bool) (rand : Nat) (s : Emulator)
    (hw : s.waiting_for_keypress = false) :
    run_once keys rand s = fetchExecute keys rand s := by
  unfold run_once
  rw [hw]
  simp

/-- When the latch is set and no key among 0-15 is pressed, `run_once`
returns without changing anything. -/
lemma run_once_waiting_none (keys : Nat → Bool) (rand : Nat) (s : Emulator)
    (hw : s.waiting_for_keypress = true)
    (hk : (List.range 16).find? keys = none) :
    run_once keys rand s = .ok s {} := by
  unfold run_once
  rw [hw, if_pos rfl, hk]

/-- When the latch is set and `k` is the first pressed key, `run_once` stores
`k` in the target register, clears the latch, and falls through into
fetch/decode/execute in the same call. -/
lemma run_once_waiting_some (keys : Nat → Bool) (rand : Nat) (s : Emulator) (k : Nat)
    (hw : s.waiting_for_keypress = true)
    (hk : (List.range 16).find? keys = some k) :
    run_once keys rand s =
      fetchExecute keys rand
        { s with v := Function.update s.v s.keypress_target k,
                 waiting_for_keypress := false } := by
  unfold run_once
  rw [hw, if_pos rfl, hk]

/-- A successful fetch of word `w` reduces `fetchExecute` to the dispatch on
`w` with the program counter advanced. -/
lemma fetchExecute_some (keys : Nat → Bool) (rand : Nat) (s : Emulator) (w : Nat)
    (hf : s.memory.read2 s.program_counter = some w) :
    fetchExecute keys rand s =
      executeInstruction keys rand w { s with program_counter := s.program_counter + 2 } := by
  unfold fetchExecute
  rw [hf]

/-- Dispatch lemma for `00EE` (return from subroutine): the stack pointer is
decremented by 2 before the big-endian read into the program counter. -/
lemma executeInstruction_ret (keys : Nat → Bool) (rand : Nat) (s : Emulator) :
    executeInstruction keys rand 0x00EE s =
      match s.memory.read2 (s.stack_pointer - 2) with
      | none => .err .outOfBounds false { s with stack_pointer := s.stack_pointer - 2 }
      | some a =>
        .ok { s with stack_pointer := s.stack_pointer - 2, program_counter := a } {} := by
  unfold executeInstruction
  rw [if_neg (by decide), if_pos rfl]

/-- Dispatch lemma for `1NNN` (jump): the program counter becomes NNN and the
halt-recommended signal is raised exactly when NNN is the fetch address. -/
lemma executeInstruction_jump (keys : Nat → Bool) (rand w : Nat) (s : Emulator)
    (h : w &&& 0xF000 = 0x1000) :
    executeInstruction keys rand w s =
      .ok { s with program_counter := w &&& 0x0FFF }
        { haltRecommended := decide (s.program_counter - 2 = w &&& 0x0FFF) } := by
  unfold executeInstruction
  rw [if_neg (fun hg => mask_eq_conflict h hg (by decide)),
    if_neg (fun hg => mask_eq_conflict h hg (by decide)),
    if_pos h]

/-- Dispatch lemma for `2NNN` (call): the advanced program counter is pushed
big-endian at the stack pointer, which then grows by 2. -/
lemma executeInstruction_call (keys : Nat → Bool) (rand w : Nat) (s : Emulator)
    (h : w &&& 0xF000 = 0x2000) :
    executeInstruction keys rand w s =
      match s.memory.write2 s.stack_pointer s.program_counter with
      | none => .err .outOfBounds false s
      | some m =>
        .ok { s with memory := m, stack_pointer := s.stack_pointer + 2,
                     program_counter := w &&& 0x0FFF } {} := by
  unfold executeInstruction
  rw [if_neg (fun hg => mask_eq_conflict h hg (by decide)),
    if_neg (fun hg => mask_eq_conflict h hg (by decide)),
    if_neg (fun hg => mask_conflict h hg (by decide)),
    if_pos h]

/-- Dispatch lemma for `7XNN` (add immediate, carry discarded). -/
lemma executeInstruction_addImm (keys : Nat → Bool) (rand w : Nat) (s : Emulator)
    (h : w &&& 0xF000 = 0x7000) :
    executeInstruction keys rand w s =
      .ok { s with v := Function.update s.v (hiReg w)
                    (wrapDown (s.v (hiReg w) + (w &&& 0x00FF))) } {} := by
  unfold executeInstruction
  rw [if_neg (fun hg => mask_eq_conflict h hg (by decide)),
    if_neg (fun hg => mask_eq_conflict h hg (by decide)),
    if_neg (fun hg => mask_conflict h hg (by decide)),
    if_neg (fun hg => mask_conflict h hg (by decide)),
    if_neg (fun hg => mask_conflict h hg (by decide)),
    if_neg (fun hg => mask_conflict h hg (by decide)),
    if_neg (fun hg => mask_conflict h hg (by decide)),
    if_neg (fun hg => mask_conflict h hg (by decide)),
    if_pos h]

/-- Dispatch lemma for `8XY4` (register add with carry flag). -/
lemma executeInstruction_addReg (keys : Nat → Bool) (rand w : Nat) (s : Emulator)
    (h : w &&& 0xF00F = 0x8004) :
    executeInstruction keys rand w s =
      .ok { s with v := Function.update
                          (Function.update s.v (hiReg w)
                            (wrapDownCarry (s.v (hiReg w) + s.v (loReg w)) false).1) 15
                          (if (wrapDownCarry (s.v (hiReg w) + s.v (loReg w)) false).2
                           then 1 else 0) }
        {} := by
  unfold executeInstruction
  rw [if_neg (fun hg => mask_eq_conflict h hg (by decide)),
    if_neg (fun hg => mask_eq_conflict h hg (by decide)),
    if_neg (fun hg => mask_conflict h hg (by decide)),
    if_neg (fun hg => mask_conflict h hg (by decide)),
    if_neg (fun hg => mask_conflict h hg (by decide)),
    if_neg (fun hg => mask_conflict h hg (by decide)),
    if_neg (fun hg => mask_conflict h hg (by decide)),
    if_neg (fun hg => mask_conflict h hg (by decide)),
    if_neg (fun hg => mask_conflict h hg (by decide)),
    if_neg (fun hg => mask_conflict h hg (by decide)),
    if_neg (fun hg => mask_conflict h hg (by decide)),
    if_neg (fun hg => mask_conflict h hg (by decide)),
    if_neg (fun hg => mask_conflict h hg (by decide)),
    if_pos h]

/-- Dispatch lemma for `BNNN` (jump with V0 offset): same halt-recommended
rule as `1NNN`, with target `NNN + V[0]`. -/
lemma executeInstruction_jumpV0 (keys : Nat → Bool) (rand w : Nat) (s : Emulator)
    (h : w &&& 0xF000 = 0xB000) :
    executeInstruction keys rand w s =
      .ok { s with program_counter := (w &&& 0x0FFF) + s.v 0 }
        { haltRecommended := decide (s.program_counter - 2 = (w &&& 0x0FFF) + s.v 0) } := by
  unfold executeInstruction
  rw [if_neg (fun hg => mask_eq_conflict h hg (by decide)),
    if_neg (fun hg => mask_eq_conflict h hg (by decide)),
    if_neg (fun hg => mask_conflict h hg (by decide)),
    if_neg (fun hg => mask_conflict h hg (by decide)),
    if_neg (fun hg => mask_conflict h hg (by decide)),
    if_neg (fun hg => mask_conflict h hg (by decide)),
    if_neg (fun hg => mask_conflict h hg (by decide)),
    if_neg (fun hg => mask_conflict h hg (by decide)),
    if_neg (fun hg => mask_conflict h hg (by decide)),
    if_neg (fun hg => mask_conflict h hg (by decide)),
    if_neg (fun hg => mask_conflict h hg (by decide)),
    if_neg (fun hg => mask_conflict h hg (by decide)),
    if_neg (fun hg => mask_conflict h hg (by decide)),
    if_neg (fun hg => mask_conflict h hg (by decide)),
    if_neg (fun hg => mask_conflict h hg (by decide)),
    if_neg (fun hg => mask_conflict h hg (by decide)),
    if_neg (fun hg => mask_conflict h hg (by decide)),
    if_neg (fun hg => mask_conflict h hg (by decide)),
    if_neg (fun hg => mask_conflict h hg (by decide)),
    if_neg (fun hg => mask_conflict h hg (by decide)),
    if_pos h]

/-- Dispatch lemma for `FX33` (BCD store): three single-byte writes at the
index register. -/
lemma executeInstruction_bcd (keys : Nat → Bool) (rand w : Nat) (s : Emulator)
    (h : w &&& 0xF0FF = 0xF033) :
    executeInstruction keys rand w s =
      match s.memory.write s.index_register (s.v (hiReg w) / 100) with
      | none => .err .outOfBounds false s
      | some m1 =>
        match m1.write (s.index_register + 1) (s.v (hiReg w) % 100 / 10) with
        | none => .err .outOfBounds false { s with memory := m1 }
        | some m2 =>
          match m2.write (s.index_register + 2) (s.v (hiReg w) % 100 % 10) with
          | none => .err .outOfBounds false { s with memory := m2 }
          | some m3 => .ok { s with memory := m3 } {} := by
  unfold executeInstruction
  rw [if_neg (fun hg => mask_eq_conflict h hg (by decide)),
    if_neg (fun hg => mask_eq_conflict h hg (by decide)),
    if_neg (fun hg => mask_conflict h hg (by decide)),
    if_neg (fun hg => mask_conflict h hg (by decide)),
    if_neg (fun hg => mask_conflict h hg (by decide)),
    if_neg (fun hg => mask_conflict h hg (by decide)),
    if_neg (fun hg => mask_conflict h hg (by decide)),
    if_neg (fun hg => mask_conflict h hg (by decide)),
    if_neg (fun hg => mask_conflict h hg (by decide)),
    if_neg (fun hg => mask_conflict h hg (by decide)),
    if_neg (fun hg => mask_conflict h hg (by decide)),
    if_neg (fun hg => mask_conflict h hg (by decide)),
    if_neg (fun hg => mask_conflict h hg (by decide)),
    if_neg (fun hg => mask_conflict h hg (by decide)),
    if_neg (fun hg => mask_conflict h hg (by decide)),
    if_neg (fun hg => mask_conflict h hg (by decide)),
    if_neg (fun hg => mask_conflict h hg (by decide)),
    if_neg (fun hg => mask_conflict h hg (by decide)),
    if_neg (fun hg => mask_conflict h hg (by decide)),
    if_neg (fun hg => mask_conflict h hg (by decide)),
    if_neg (fun hg => mask_conflict h hg (by decide)),
    if_neg (fun hg => mask_conflict h hg (by decide)),
    if_neg (fun hg => mask_conflict h hg (by decide)),
    if_neg (fun hg => mask_conflict h hg (by decide)),
    if_neg (fun hg => mask_conflict h hg (by decide)),
    if_neg (fun hg => mask_conflict h hg (by decide)),
    if_neg (fun hg => mask_conflict h hg (by decide)),
    if_neg (fun hg => mask_conflict h hg (by decide)),
    if_neg (fun hg => mask_conflict h hg (by decide)),
    if_neg (fun hg => mask_conflict h hg (by decide)),
    if_neg (fun hg => mask_conflict h hg (by decide)),
    if_pos h]

/-- Dispatch lemma for the else branch: an instruction word matching no
pattern raises `UnimplementedInstruction` with the word and the fetch
address, after the error event is emitted. -/
lemma executeInstruction_unimplemented (keys : Nat → Bool) (rand w : Nat) (s : Emulator)
    (h : ¬ isImplemented w) :
    executeInstruction keys rand w s =
      .err (.unimplementedInstruction w (s.program_counter - 2)) true s := by
  unfold isImplemented at h
  push_neg at h
  obtain ⟨h1, h2, h3, h4, h5, h6, h7, h8, h9, h10, h11, h12, h13, h14, h15, h16, h17,
    h18, h19, h20, h21, h22, h23, h24, h25, h26, h27, h28, h29, h30, h31, h32, h33,
    h34⟩ := h
  unfold executeInstruction
  rw [if_neg h1, if_neg h2, if_neg h3, if_neg h4, if_neg h5, if_neg h6, if_neg h7,
    if_neg h8, if_neg h9, if_neg h10, if_neg h11, if_neg h12, if_neg h13, if_neg h14,
    if_neg h15, if_neg h16, if_neg h17, if_neg h18, if_neg h19, if_neg h20, if_neg h21,
    if_neg h22, if_neg h23, if_neg h24, if_neg h25, if_neg h26, if_neg h27, if_neg h28,
    if_neg h29, if_neg h30, if_neg h31, if_neg h32, if_neg h33, if_neg h34]

/-- The dispatch depends on the random draw only through the `CXNN` branch. -/
lemma executeInstruction_rand (keys : Nat → Bool) (r1 r2 w : Nat) (s : Emulator)
    (h : ¬ w &&& 0xF000 = 0xC000) :
    executeInstruction keys r1 w s = executeInstruction keys r2 w s := by
  unfold executeInstruction
  by_cases hc1 : w = 0x00E0
  · rw [if_pos hc1, if_pos hc1]
  rw [if_neg hc1, if_neg hc1]
  by_cases hc2 : w = 0x00EE
  · rw [if_pos hc2, if_pos hc2]
  rw [if_neg hc2, if_neg hc2]
  by_cases hc3 : w &&& 0xF000 = 0x1000
  · rw [if_pos hc3, if_pos hc3]
  rw [if_neg hc3, if_neg hc3]
  by_cases hc4 : w &&& 0xF000 = 0x2000
  · rw [if_pos hc4, if_pos hc4]
  rw [if_neg hc4, if_neg hc4]
  by_cases hc5 : w &&& 0xF000 = 0x3000
  · rw [if_pos hc5, if_pos hc5]
  rw [if_neg hc5, if_neg hc5]
  by_cases hc6 : w &&& 0xF000 = 0x4000
  · rw [if_pos hc6, if_pos hc6]
  rw [if_neg hc6, if_neg hc6]
  by_cases hc7 : w &&& 0xF00F = 0x5000
  · rw [if_pos hc7, if_pos hc7]
  rw [if_neg hc7, if_neg hc7]
  by_cases hc8 : w &&& 0xF000 = 0x6000
  · rw [if_pos hc8, if_pos hc8]
  rw [if_neg hc8, if_neg hc8]
  by_cases hc9 : w &&& 0xF000 = 0x7000
  · rw [if_pos hc9, if_pos hc9]
  rw [if_neg hc9, if_neg hc9]
  by_cases hc10 : w &&& 0xF00F = 0x8000
  · rw [if_pos hc10, if_pos hc10]
  rw [if_neg hc10, if_neg hc10]
  by_cases hc11 : w &&& 0xF00F = 0x8001
  · rw [if_pos hc11, if_pos hc11]
  rw [if_neg hc11, if_neg hc11]
  by_cases hc12 : w &&& 0xF00F = 0x8002
  · rw [if_pos hc12, if_pos hc12]
  rw [if_neg hc12, if_neg hc12]
  by_cases hc13 : w &&& 0xF00F = 0x8003
  · rw [if_pos hc13, if_pos hc13]
  rw [if_neg hc13, if_neg hc13]
  by_cases hc14 : w &&& 0xF00F = 0x8004
  · rw [if_pos hc14, if_pos hc14]
  rw [if_neg hc14, if_neg hc14]
  by_cases hc15 : w &&& 0xF00F = 0x8005
  · rw [if_pos hc15, if_pos hc15]
  rw [if_neg hc15, if_neg hc15]
  by_cases hc16 : w &&& 0xF00F = 0x8006
  · rw [if_pos hc16, if_pos hc16]
  rw [if_neg hc16, if_neg hc16]
  by_cases hc17 : w &&& 0xF00F = 0x8007
  · rw [if_pos hc17, if_pos hc17]
  rw [if_neg hc17, if_neg hc17]
  by_cases hc18 : w &&& 0xF00F = 0x800E
  · rw [if_pos hc18, if_pos hc18]
  rw [if_neg hc18, if_neg hc18]
  by_cases hc19 : w &&& 0xF00F = 0x9000
  · rw [if_pos hc19, if_pos hc19]
  rw [if_neg hc19, if_neg hc19]
  by_cases hc20 : w &&& 0xF000 = 0xA000
  · rw [if_pos hc20, if_pos hc20]
  rw [if_neg hc20, if_neg hc20]
  by_cases hc21 : w &&& 0xF000 = 0xB000
  · rw [if_pos hc21, if_pos hc21]
  rw [if_neg hc21, if_neg hc21]
  by_cases hc22 : w &&& 0xF000 = 0xC000
  all_goals first | exact absurd hc22 h | rw [if_neg hc22, if_neg hc22]

/-- A memory image holding the given program bytes at the program start
address and zero elsewhere (the font region is irrelevant to the claims). -/
def memOf (prog : List Nat) : Memory :=
  ⟨fun a => if PROGRAM_COUNTER_START ≤ a then prog.getD (a - PROGRAM_COUNTER_START) 0 else 0⟩

/-- The freshly constructed processor of `Emulator.__init__` loaded with the
given program bytes. -/
def initState (prog : List Nat) : Emulator where
  v := fun _ => 0
  program_counter := PROGRAM_COUNTER_START
  index_register := 0
  stack_pointer := STACK_POINTER_START
  delay_timer := 0
  sound_timer := 0
  waiting_for_keypress := false
  keypress_target := 0
  memory := memOf prog
  video_memory := VideoMemory.reset

/-- A `Running` state whose next instruction is `0x801E` (shift V0 left) with
V[0] = 128, exhibiting the missing wrap of `8XYE`. -/
def shlBugState : Emulator :=
  { initState [0x80, 0x1E] with v := Function.update (initState [0x80, 0x1E]).v 0 128 }

/-- Claim C1. Executing `8R1R2E` is specified to set V[F] to bit 7 of the old
V[R1] and then V[R1] to `(old V[R1] << 1) mod 256`, keeping V[R1] within
[0, 255]. The code shifts without the modulo reduction: from V[0] = 128,
instruction `0x801E`, the step succeeds, the flag is 1 as specified, but the
result register holds 256 — outside [0, 255] and different from the specified
`(128 << 1) mod 256 = 0`. -/
theorem shift_left_overflow_bug :
    (run_once (fun _ => false) 0 shlBugState).isOk = true ∧
    ((run_once (fun _ => false) 0 shlBugState).state).v 0 = 256 ∧
    ((run_once (fun _ => false) 0 shlBugState).state).v 15 = 1 ∧
    ¬ ((run_once (fun _ => false) 0 shlBugState).state).v 0 ≤ 255 ∧
    (shlBugState.v 0 <<< 1) % 256 = 0 := by decide

/-- Claim C3. An instruction word matching no pattern of the dispatch table
makes `run_once` fail with `UnimplementedInstruction` carrying exactly that
word and its fetch address, after the error event is emitted to the host, and
the registers, the memory and the framebuffer are left untouched (the program
counter, see claim C9, is not restored). -/
theorem unimplemented_no_mutation (keys : Nat → Bool) (rand w : Nat) (s : Emulator)
    (hw : s.waiting_for_keypress = false)
    (hf : s.memory.read2 s.program_counter = some w)
    (h : ¬ isImplemented w) :
    run_once keys rand s =
      .err (.unimplementedInstruction w s.program_counter) true
        { s with program_counter := s.program_counter + 2 } ∧
    ((run_once keys rand s).state).v = s.v ∧
    ((run_once keys rand s).state).memory = s.memory ∧
    ((run_once keys rand s).state).video_memory = s.video_memory := by
  have e : run_once keys rand s =
      .err (.unimplementedInstruction w s.program_counter) true
        { s with program_counter := s.program_counter + 2 } := by
    rw [run_once_running keys rand s hw, fetchExecute_some keys rand s w hf,
      executeInstruction_unimplemented keys rand w _ h]
    simp
  refine ⟨e, ?_, ?_, ?_⟩ <;> rw [e] <;> rfl

/-- Witness for claim C3 at the concrete unimplemented word `0x0FFF`. -/
theorem unimplemented_no_mutation_witness :
    ((run_once (fun _ => false) 0 (initState [0x0F, 0xFF])).state).v =
      (initState [0x0F, 0xFF]).v ∧
    ((run_once (fun _ => false) 0 (initState [0x0F, 0xFF])).state).memory =
      (initState [0x0F, 0xFF]).memory :=
  ⟨(unimplemented_no_mutation (fun _ => false) 0 0x0FFF (initState [0x0F, 0xFF])
      rfl (by decide) (by decide)).2.1,
   (unimplemented_no_mutation (fun _ => false) 0 0x0FFF (initState [0x0F, 0xFF])
      rfl (by decide) (by decide)).2.2.1⟩

/-- Claim C9. When `run_once` fails with `UnimplementedInstruction`, the
program counter is not restored: the state at the raise has program counter
equal to the reported fetch address plus 2, because the counter is advanced
right after the fetch and before decode. -/
theorem unimplemented_pc_after (keys : Nat → Bool) (rand w : Nat) (s : Emulator)
    (hw : s.waiting_for_keypress = false)
    (hf : s.memory.read2 s.program_counter = some w)
    (h : ¬ isImplemented w) :
    ∃ s1, run_once keys rand s =
        .err (.unimplementedInstruction w s.program_counter) true s1 ∧
      s1.program_counter = s.program_counter + 2 := by
  refine ⟨{ s with program_counter := s.program_counter + 2 }, ?_, rfl⟩
  rw [run_once_running keys rand s hw, fetchExecute_some keys rand s w hf,
    executeInstruction_unimplemented keys rand w _ h]
  simp

/-- Witness for claim C9 at the concrete unimplemented word `0xE000`. -/
theorem unimplemented_pc_after_witness :
    ∃ s1, run_once (fun _ => false) 0 (initState [0xE0, 0x00]) =
        .err (.unimplementedInstruction 0xE000 (initState [0xE0, 0x00]).program_counter)
          true s1 ∧
      s1.program_counter = (initState [0xE0, 0x00]).program_counter + 2 :=
  unimplemented_pc_after (fun _ => false) 0 0xE000 (initState [0xE0, 0x00])
    rfl (by decide) (by decide)

/-- Claim C7. `1NNN` sets the program counter to NNN and raises the
halt-recommended signal exactly when NNN equals the fetch address; `BNNN`
does the same with target `NNN + V[0]`. The jump is performed whether or not
the signal is raised. -/
theorem jump_halt_signal (keys : Nat → Bool) (rand w : Nat) (s : Emulator)
    (hw : s.waiting_for_keypress = false)
    (hf : s.memory.read2 s.program_counter = some w) :
    (w &&& 0xF000 = 0x1000 →
      run_once keys rand s =
        .ok { s with program_counter := w &&& 0x0FFF }
          { haltRecommended := decide (s.program_counter = w &&& 0x0FFF) }) ∧
    (w &&& 0xF000 = 0xB000 →
      run_once keys rand s =
        .ok { s with program_counter := (w &&& 0x0FFF) + s.v 0 }
          { haltRecommended := decide (s.program_counter = (w &&& 0x0FFF) + s.v 0) }) := by
  constructor
  · intro hop
    rw [run_once_running keys rand s hw, fetchExecute_some keys rand s w hf,
      executeInstruction_jump keys rand w _ hop]
    simp
  · intro hop
    rw [run_once_running keys rand s hw, fetchExecute_some keys rand s w hf,
      executeInstruction_jumpV0 keys rand w _ hop]
    simp

/-- Witness for claim C7: the tight self-loop `0x1200` placed at address
`0x200` jumps to itself and raises the halt-recommended signal. -/
theorem jump_halt_signal_witness :
    run_once (fun _ => false) 0 (initState [0x12, 0x00]) =
      .ok { initState [0x12, 0x00] with program_counter := 0x1200 &&& 0x0FFF }
        { haltRecommended :=
            decide ((initState [0x12, 0x00]).program_counter = 0x1200 &&& 0x0FFF) } :=
  (jump_halt_signal (fun _ => false) 0 0x1200 (initState [0x12, 0x00])
    rfl (by decide)).1 (by decide)

/-- A `Running` state whose next instruction is `0x8F04` (add V0 into VF)
with V[15] = 3 and V[0] = 4. -/
def addFlagCexState : Emulator :=
  { initState [0x8F, 0x04] with
      v := Function.update (Function.update (initState [0x8F, 0x04]).v 15 3) 0 4 }

/-- Claim C4 counterexample: with R1 = F the carry write to V[F] overwrites
the sum, so V[R1] is not `(a+b) mod 256`. From V[F] = 3, V[0] = 4,
instruction `0x8F04` leaves V[F] = 0 (the carry flag), not `(3+4) mod 256`. -/
theorem add_reg_flag_dest_cex :
    ((run_once (fun _ => false) 0 addFlagCexState).state).v 15 ≠
      (addFlagCexState.v 15 + addFlagCexState.v 0) % 256 ∧
    ((run_once (fun _ => false) 0 addFlagCexState).state).v 15 = 0 := by decide

/-- Claim C4 (amended with R1 ≠ F, which the counterexample forces: the carry
flag assignment, written last, lands in V[R1] itself when R1 = F). For old
register values a = V[R1], b = V[R2], executing `8R1R24` yields
V[R1] = (a+b) mod 256 and V[F] = 1 exactly when a+b > 255, else 0. -/
theorem add_reg_carry (keys : Nat → Bool) (rand w : Nat) (s : Emulator)
    (hw : s.waiting_for_keypress = false)
    (hf : s.memory.read2 s.program_counter = some w)
    (hop : w &&& 0xF00F = 0x8004)
    (hr : hiReg w ≠ 15) :
    ∃ s1 sig, run_once keys rand s = .ok s1 sig ∧
      s1.v (hiReg w) = (s.v (hiReg w) + s.v (loReg w)) % 256 ∧
      s1.v 15 = (if s.v (hiReg w) + s.v (loReg w) > 255 then 1 else 0) ∧
      s1.program_counter = s.program_counter + 2 := by
  rw [run_once_running keys rand s hw, fetchExecute_some keys rand s w hf,
    executeInstruction_addReg keys rand w _ hop]
  refine ⟨_, _, rfl, ?_, ?_, rfl⟩
  · simp [Function.update_noteq hr, Function.update_same, wrapDownCarry_eq]
  · simp [Function.update_same, wrapDownCarry_eq]

/-- Witness for claim C4: `0x8124` with V[1] = 200, V[2] = 100 gives
V[1] = 44 and carry flag 1. -/
def addDemoState : Emulator :=
  { initState [0x81, 0x24] with
      v := Function.update (Function.update (initState [0x81, 0x24]).v 1 200) 2 100 }

theorem add_reg_carry_witness :
    ∃ s1 sig, run_once (fun _ => false) 0 addDemoState = .ok s1 sig ∧
      s1.v (hiReg 0x8124) =
        (addDemoState.v (hiReg 0x8124) + addDemoState.v (loReg 0x8124)) % 256 ∧
      s1.v 15 =
        (if addDemoState.v (hiReg 0x8124) + addDemoState.v (loReg 0x8124) > 255
         then 1 else 0) ∧
      s1.program_counter = addDemoState.program_counter + 2 :=
  add_reg_carry (fun _ => false) 0 0x8124 addDemoState rfl (by decide) (by decide)
    (by decide)

/-- Claim C5 counterexample: `7R1NN` with R1 = F writes the sum into V[F],
so V[F] is not left unmodified. From V[F] = 0, instruction `0x7F05` leaves
V[F] = 5. -/
theorem add_imm_flag_dest_cex :
    ((run_once (fun _ => false) 0 (initState [0x7F, 0x05])).state).v 15 ≠
      (initState [0x7F, 0x05]).v 15 ∧
    ((run_once (fun _ => false) 0 (initState [0x7F, 0x05])).state).v 15 = 5 := by decide

/-- Claim C5 (amended with the V[F] clause restricted to R1 ≠ F, which the
counterexample forces: when R1 = F the instruction writes its own result
there). `7R1NN` sets V[R1] to `(old V[R1] + NN) mod 256` and leaves V[F]
unmodified whenever R1 ≠ F. -/
theorem add_imm_wrap (keys : Nat → Bool) (rand w : Nat) (s : Emulator)
    (hw : s.waiting_for_keypress = false)
    (hf : s.memory.read2 s.program_counter = some w)
    (hop : w &&& 0xF000 = 0x7000) :
    ∃ s1 sig, run_once keys rand s = .ok s1 sig ∧
      s1.v (hiReg w) = (s.v (hiReg w) + (w &&& 0x00FF)) % 256 ∧
      (hiReg w ≠ 15 → s1.v 15 = s.v 15) ∧
      s1.program_counter = s.program_counter + 2 := by
  rw [run_once_running keys rand s hw, fetchExecute_some keys rand s w hf,
    executeInstruction_addImm keys rand w _ hop]
  refine ⟨_, _, rfl, ?_, ?_, rfl⟩
  · simp [Function.update_same, wrapDown_eq]
  · intro hr
    simp [Function.update_noteq (Ne.symm hr)]

/-- Witness for claim C5: `0x73FA` with V[3] = 200 gives V[3] = 194 and an
untouched flag register. -/
def addImmDemoState : Emulator :=
  { initState [0x73, 0xFA] with v := Function.update (initState [0x73, 0xFA]).v 3 200 }

theorem add_imm_wrap_witness :
    ∃ s1 sig, run_once (fun _ => false) 0 addImmDemoState = .ok s1 sig ∧
      s1.v (hiReg 0x73FA) = (addImmDemoState.v (hiReg 0x73FA) + (0x73FA &&& 0x00FF)) % 256 ∧
      (hiReg 0x73FA ≠ 15 → s1.v 15 = addImmDemoState.v 15) ∧
      s1.program_counter = addImmDemoState.program_counter + 2 :=
  add_imm_wrap (fun _ => false) 0 0x73FA addImmDemoState rfl (by decide) (by decide)

/-- An `AwaitingKey` state, target register 1, whose next instruction is
`0x6012` (V0 := 0x12). -/
def awaitCexState : Emulator :=
  { initState [0x60, 0x12] with waiting_for_keypress := true, keypress_target := 1 }

/-- Claim C2 counterexample: in the latching `step()` call itself an
instruction is fetched and executed — with key 5 pressed, the call latches
V[1] = 5, clears the latch, and then also executes `0x6012`: the program
counter advances and V[0] is written in the same call, where the claim says
normal fetch resumes only on the following call. -/
theorem awaiting_key_same_call_cex :
    ((run_once (fun k => k == 5) 0 awaitCexState).state).program_counter ≠
      awaitCexState.program_counter ∧
    ((run_once (fun k => k == 5) 0 awaitCexState).state).v 1 = 5 ∧
    ((run_once (fun k => k == 5) 0 awaitCexState).state).v 0 = 0x12 ∧
    ((run_once (fun k => k == 5) 0 awaitCexState).state).waiting_for_keypress = false := by
  decide

/-- Claim C2 (amended as the counterexample forces): while the latch is set,
a `step()` call with no key among 0-15 pressed changes nothing at all; a call
during which some key is pressed writes the lowest-numbered pressed key into
the recorded target register, clears the latch, and then continues within
the same call into the normal fetch/decode/execute of the instruction at the
program counter. -/
theorem awaiting_key_step (keys : Nat → Bool) (rand : Nat) (s : Emulator)
    (hw : s.waiting_for_keypress = true) :
    ((List.range 16).find? keys = none → run_once keys rand s = .ok s {}) ∧
    (∀ k, (List.range 16).find? keys = some k →
      run_once keys rand s =
        fetchExecute keys rand
          { s with v := Function.update s.v s.keypress_target k,
                   waiting_for_keypress := false }) :=
  ⟨fun hk => run_once_waiting_none keys rand s hw hk,
   fun k hk => run_once_waiting_some keys rand s k hw hk⟩

/-- Witness for claim C2 at key 5 pressed and target register 2. -/
def awaitDemoState : Emulator :=
  { initState [0x60, 0x12] with waiting_for_keypress := true, keypress_target := 2 }

theorem awaiting_key_step_witness :
    run_once (fun k => k == 5) 0 awaitDemoState =
      fetchExecute (fun k => k == 5) 0
        { awaitDemoState with
            v := Function.update awaitDemoState.v awaitDemoState.keypress_target 5,
            waiting_for_keypress := false } :=
  (awaiting_key_step (fun k => k == 5) 0 awaitDemoState rfl).2 5 (by decide)

/-- The memory produced by an in-bounds single-byte write. -/
def Memory.store (m : Memory) (a v : Nat) : Memory :=
  ⟨fun x => if x = a then v else m.get x⟩

/-- An in-bounds single-byte write succeeds and produces `store`. -/
lemma Memory.write_lt (m : Memory) (a v : Nat) (h : a < MEM_SIZE) :
    m.write a v = some (m.store a v) := by
  unfold Memory.write Memory.store
  rw [if_pos h]

lemma Memory.store_get_same (m : Memory) (a v : Nat) : (m.store a v).get a = v := by
  unfold Memory.store
  simp

lemma Memory.store_get_other (m : Memory) (a v x : Nat) (h : x ≠ a) :
    (m.store a v).get x = m.get x := by
  unfold Memory.store
  simp [h]

/-- The memory produced by an in-bounds 2-byte big-endian write. -/
def Memory.store2 (m : Memory) (a v : Nat) : Memory :=
  ⟨fun x => if x = a then v / 256 % 256 else if x = a + 1 then v % 256 else m.get x⟩

/-- An in-bounds 2-byte write succeeds and produces `store2`. -/
lemma Memory.write2_le (m : Memory) (a v : Nat) (h : a + 2 ≤ MEM_SIZE) :
    m.write2 a v = some (m.store2 a v) := by
  unfold Memory.write2 Memory.store2
  rw [if_pos h]

/-- An in-bounds 2-byte read succeeds with the big-endian value. -/
lemma Memory.read2_le (m : Memory) (a : Nat) (h : a + 2 ≤ MEM_SIZE) :
    m.read2 a = some (m.get a * 256 + m.get (a + 1)) := by
  unfold Memory.read2
  rw [if_pos h]

lemma Memory.store2_get_first (m : Memory) (a v : Nat) :
    (m.store2 a v).get a = v / 256 % 256 := by
  unfold Memory.store2
  simp

lemma Memory.store2_get_second (m : Memory) (a v : Nat) :
    (m.store2 a v).get (a + 1) = v % 256 := by
  unfold Memory.store2
  rw [show ((⟨fun x => if x = a then v / 256 % 256
      else if x = a + 1 then v % 256 else m.get x⟩ : Memory)).get (a + 1) =
      if a + 1 = a then v / 256 % 256 else if a + 1 = a + 1 then v % 256 else m.get (a + 1)
    from rfl]
  rw [if_neg (by omega), if_pos rfl]

lemma Memory.store2_get_other (m : Memory) (a v x : Nat) (h1 : x ≠ a) (h2 : x ≠ a + 1) :
    (m.store2 a v).get x = m.get x := by
  unfold Memory.store2
  simp [h1, h2]

/-- A `Running` state with `0xF133` (BCD of V[1]) at the program start,
V[1] = 157 and index register 0x300. -/
def bcdDemoState : Emulator :=
  { initState [0xF1, 0x33] with
      index_register := 0x300,
      v := Function.update (initState [0xF1, 0x33]).v 1 157 }

/-- Claim C8 counterexample: `FR133` does change processor state besides the
three memory bytes — the program counter advances by 2 during the fetch, so
"changes no other processor state" fails as stated (the three digit bytes
themselves are written exactly as specified). -/
theorem bcd_pc_advances_cex :
    ((run_once (fun _ => false) 0 bcdDemoState).state).program_counter ≠
      bcdDemoState.program_counter ∧
    ((run_once (fun _ => false) 0 bcdDemoState).state).memory.get 0x300 = 1 ∧
    ((run_once (fun _ => false) 0 bcdDemoState).state).memory.get 0x301 = 5 ∧
    ((run_once (fun _ => false) 0 bcdDemoState).state).memory.get 0x302 = 7 := by decide

/-- Claim C8 (amended as the counterexample forces: besides the three bytes,
the program counter advances by 2 as in every fetch). `FR133` writes the
decimal digits of V[R1] — hundreds, tens, ones — at the index register, and
every other component of the processor state except the program counter is
unchanged: all registers, the index register, the stack pointer, both timers,
the latch, the framebuffer, and every other memory byte. -/
theorem bcd_write_digits (keys : Nat → Bool) (rand w : Nat) (s : Emulator)
    (hw : s.waiting_for_keypress = false)
    (hf : s.memory.read2 s.program_counter = some w)
    (hop : w &&& 0xF0FF = 0xF033)
    (hb : s.index_register + 3 ≤ MEM_SIZE) :
    ∃ s1 sig, run_once keys rand s = .ok s1 sig ∧
      s1.memory.get s.index_register = s.v (hiReg w) / 100 ∧
      s1.memory.get (s.index_register + 1) = s.v (hiReg w) % 100 / 10 ∧
      s1.memory.get (s.index_register + 2) = s.v (hiReg w) % 10 ∧
      (∀ a, a ≠ s.index_register → a ≠ s.index_register + 1 →
        a ≠ s.index_register + 2 → s1.memory.get a = s.memory.get a) ∧
      s1.v = s.v ∧
      s1.index_register = s.index_register ∧
      s1.stack_pointer = s.stack_pointer ∧
      s1.delay_timer = s.delay_timer ∧
      s1.sound_timer = s.sound_timer ∧
      s1.waiting_for_keypress = s.waiting_for_keypress ∧
      s1.video_memory = s.video_memory ∧
      s1.program_counter = s.program_counter + 2 := by
  have h1 : s.index_register < MEM_SIZE := by omega
  have h2 : s.index_register + 1 < MEM_SIZE := by omega
  have h3 : s.index_register + 2 < MEM_SIZE := by omega
  have n1 : s.index_register ≠ s.index_register + 1 := by omega
  have n2 : s.index_register ≠ s.index_register + 2 := by omega
  have n3 : s.index_register + 1 ≠ s.index_register + 2 := by omega
  have e : run_once keys rand s =
      .ok { s with program_counter := s.program_counter + 2,
                   memory := ((s.memory.store s.index_register
                       (s.v (hiReg w) / 100)).store
                       (s.index_register + 1) (s.v (hiReg w) % 100 / 10)).store
                     (s.index_register + 2) (s.v (hiReg w) % 100 % 10) } {} := by
    rw [run_once_running keys rand s hw, fetchExecute_some keys rand s w hf,
      executeInstruction_bcd keys rand w _ hop]
    simp [Memory.write_lt, h1, h2, h3]
  refine ⟨_, _, e, ?_, ?_, ?_, ?_, rfl, rfl, rfl, rfl, rfl, rfl, rfl, rfl⟩
  · show (((s.memory.store s.index_register (s.v (hiReg w) / 100)).store
        (s.index_register + 1) (s.v (hiReg w) % 100 / 10)).store
        (s.index_register + 2) (s.v (hiReg w) % 100 % 10)).get s.index_register =
      s.v (hiReg w) / 100
    rw [Memory.store_get_other _ _ _ _ n2, Memory.store_get_other _ _ _ _ n1,
      Memory.store_get_same]
  · show (((s.memory.store s.index_register (s.v (hiReg w) / 100)).store
        (s.index_register + 1) (s.v (hiReg w) % 100 / 10)).store
        (s.index_register + 2) (s.v (hiReg w) % 100 % 10)).get (s.index_register + 1) =
      s.v (hiReg w) % 100 / 10
    rw [Memory.store_get_other _ _ _ _ n3, Memory.store_get_same]
  · show (((s.memory.store s.index_register (s.v (hiReg w) / 100)).store
        (s.index_register + 1) (s.v (hiReg w) % 100 / 10)).store
        (s.index_register + 2) (s.v (hiReg w) % 100 % 10)).get (s.index_register + 2) =
      s.v (hiReg w) % 10
    rw [Memory.store_get_same]
    omega
  · intro a na1 na2 na3
    show (((s.memory.store s.index_register (s.v (hiReg w) / 100)).store
        (s.index_register + 1) (s.v (hiReg w) % 100 / 10)).store
        (s.index_register + 2) (s.v (hiReg w) % 100 % 10)).get a = s.memory.get a
    rw [Memory.store_get_other _ _ _ _ na3, Memory.store_get_other _ _ _ _ na2,
      Memory.store_get_other _ _ _ _ na1]

/-- Witness for claim C8 at V[1] = 157, index register 0x300: the bytes
written are 1, 5, 7. -/
theorem bcd_write_digits_witness :
    ∃ s1 sig, run_once (fun _ => false) 0 bcdDemoState = .ok s1 sig ∧
      s1.memory.get bcdDemoState.index_register = 1 ∧
      s1.memory.get (bcdDemoState.index_register + 1) = 5 ∧
      s1.memory.get (bcdDemoState.index_register + 2) = 7 ∧
      s1.program_counter = bcdDemoState.program_counter + 2 := by
  obtain ⟨s1, sig, he, g1, g2, g3, _, _, _, _, _, _, _, _, gpc⟩ :=
    bcd_write_digits (fun _ => false) 0 0xF133 bcdDemoState rfl (by decide) (by decide)
      (by decide)
  exact ⟨s1, sig, he, g1.trans (by decide), g2.trans (by decide), g3.trans (by decide), gpc⟩

/-- Claim C6. A `2NNN` call pushes the already-advanced program counter
big-endian at the stack pointer and bumps the pointer by 2; an immediately
following `00EE` return pops it back: the program counter ends at the
address right after the call instruction and the stack pointer at its
pre-call value. The hypotheses keep both stack accesses and both fetches in
bounds, require the word `00EE` at the call target, and keep the target
range disjoint from the pushed return-address bytes. -/
theorem call_return_roundtrip (keys : Nat → Bool) (r1 r2 : Nat) (s : Emulator) (w : Nat)
    (hw : s.waiting_for_keypress = false)
    (hf : s.memory.read2 s.program_counter = some w)
    (hop : w &&& 0xF000 = 0x2000)
    (hsp : s.stack_pointer + 2 ≤ MEM_SIZE)
    (hpc : s.program_counter + 2 < 65536)
    (hnnn : (w &&& 0x0FFF) + 2 ≤ MEM_SIZE)
    (hdisj : (w &&& 0x0FFF) + 2 ≤ s.stack_pointer ∨ s.stack_pointer + 2 ≤ w &&& 0x0FFF)
    (hret0 : s.memory.get (w &&& 0x0FFF) = 0x00)
    (hret1 : s.memory.get ((w &&& 0x0FFF) + 1) = 0xEE) :
    ∃ s1 sig1 s2 sig2,
      run_once keys r1 s = .ok s1 sig1 ∧
      run_once keys r2 s1 = .ok s2 sig2 ∧
      s2.program_counter = s.program_counter + 2 ∧
      s2.stack_pointer = s.stack_pointer := by
  have harith : (s.program_counter + 2) / 256 % 256 * 256 + (s.program_counter + 2) % 256 =
      s.program_counter + 2 := by omega
  have e1 : run_once keys r1 s =
      .ok { s with memory := s.memory.store2 s.stack_pointer (s.program_counter + 2),
                   stack_pointer := s.stack_pointer + 2,
                   program_counter := w &&& 0x0FFF } {} := by
    rw [run_once_running keys r1 s hw, fetchExecute_some keys r1 s w hf,
      executeInstruction_call keys r1 w _ hop]
    simp [Memory.write2_le, hsp]
  have hfetch2 : (s.memory.store2 s.stack_pointer (s.program_counter + 2)).read2
      (w &&& 0x0FFF) = some 0x00EE := by
    rw [Memory.read2_le _ _ hnnn,
      Memory.store2_get_other _ _ _ _ (by omega) (by omega),
      Memory.store2_get_other _ _ _ _ (by omega) (by omega),
      hret0, hret1]
  have e2 : run_once keys r2
      { s with memory := s.memory.store2 s.stack_pointer (s.program_counter + 2),
               stack_pointer := s.stack_pointer + 2,
               program_counter := w &&& 0x0FFF } =
      .ok { s with memory := s.memory.store2 s.stack_pointer (s.program_counter + 2),
                   stack_pointer := s.stack_pointer,
                   program_counter := s.program_counter + 2 } {} := by
    rw [run_once_running keys r2
        { s with memory := s.memory.store2 s.stack_pointer (s.program_counter + 2),
                 stack_pointer := s.stack_pointer + 2,
                 program_counter := w &&& 0x0FFF } hw,
      fetchExecute_some keys r2
        { s with memory := s.memory.store2 s.stack_pointer (s.program_counter + 2),
                 stack_pointer := s.stack_pointer + 2,
                 program_counter := w &&& 0x0FFF } 0x00EE hfetch2,
      executeInstruction_ret keys r2]
    simp [Memory.read2_le, Memory.store2_get_first, Memory.store2_get_second, hsp, harith]
  exact ⟨_, _, _, _, e1, e2, rfl, rfl⟩

/-- Witness for claim C6: call `0x2208` at 0x200 with `00EE` placed at
0x208; after the two steps the program counter is 0x202 and the stack
pointer is back at its start value. -/
theorem call_return_roundtrip_witness :
    ∃ s1 sig1 s2 sig2,
      run_once (fun _ => false) 0
          (initState [0x22, 0x08, 0, 0, 0, 0, 0, 0, 0x00, 0xEE]) = .ok s1 sig1 ∧
      run_once (fun _ => false) 0 s1 = .ok s2 sig2 ∧
      s2.program_counter =
        (initState [0x22, 0x08, 0, 0, 0, 0, 0, 0, 0x00, 0xEE]).program_counter + 2 ∧
      s2.stack_pointer =
        (initState [0x22, 0x08, 0, 0, 0, 0, 0, 0, 0x00, 0xEE]).stack_pointer :=
  call_return_roundtrip (fun _ => false) 0 0
    (initState [0x22, 0x08, 0, 0, 0, 0, 0, 0, 0x00, 0xEE]) 0x2208
    rfl (by decide) (by decide) (by decide) (by decide) (by decide) (by decide)
    (by decide) (by decide)

/-- Claim C10. Outside the `CXNN` family, one `step()` is a deterministic
function of the processor state and the key predicate: the random draw does
not influence the result, so two executions from identical states with the
same keys agree exactly (the fetched word is constrained only when the fetch
succeeds; a failing fetch or a latched no-op call is deterministic anyway). -/
theorem step_deterministic (keys : Nat → Bool) (r1 r2 : Nat) (s : Emulator)
    (h : ∀ w, s.memory.read2 s.program_counter = some w → ¬ w &&& 0xF000 = 0xC000) :
    run_once keys r1 s = run_once keys r2 s := by
  have hfe : ∀ t : Emulator, t.memory = s.memory → t.program_counter = s.program_counter →
      fetchExecute keys r1 t = fetchExecute keys r2 t := by
    intro t hm hp
    unfold fetchExecute
    rw [hm, hp]
    cases hr : s.memory.read2 s.program_counter with
    | none => rfl
    | some w => exact executeInstruction_rand keys r1 r2 w _ (h w hr)
  unfold run_once
  by_cases hwait : s.waiting_for_keypress = true
  · rw [if_pos hwait, if_pos hwait]
    cases hk : (List.range 16).find? keys with
    | none => rfl
    | some k => exact hfe _ rfl rfl
  · rw [if_neg hwait, if_neg hwait]
    exact hfe s rfl rfl

/-- Witness for claim C10: with `00E0` fetched, two different random draws
give the same step result. -/
theorem step_deterministic_witness :
    run_once (fun _ => false) 3 (initState [0x00, 0xE0]) =
      run_once (fun _ => false) 7 (initState [0x00, 0xE0]) :=
  step_deterministic (fun _ => false) 3 7 (initState [0x00, 0xE0]) (by
    intro w hw
    have he : (initState [0x00, 0xE0]).memory.read2
        (initState [0x00, 0xE0]).program_counter = some 0x00E0 := by decide
    rw [he] at hw
    injection hw with h2
    subst h2
    decide)

end Chip8
